import Mathlib

/-!
Shallow embedding of `status_notifier_item_plugin.py` (tomate
StatusNotifierItem plugin): the item service (`StatusNotifierItem`), the
menu service (`DbusMenu`) and the controller (`StatusNotifierItemPlugin`).

Python dicts are modelled as association lists (insertion order preserved),
dbus variants as an inductive value type, the `clicked` closures as tagged
actions, and a Python exception (KeyError / TypeError) as `none` in an
`Option`-returning operation.  Emitted dbus signals are accumulated in
explicit logs so that "emits exactly one notification" is provable.
-/

namespace StatusNotifier

/-- Values stored in the item service's dbus property maps. -/
inductive DbusValue where
  | str (s : String)
  | bool (b : Bool)
  | int (i : Int)
  | arr (l : List DbusValue)
  | objectPath (p : String)
  | tup (l : List DbusValue)

/-- `STATUS_NOTIFIER_ITEM_IFACE` constant from the source. -/
def STATUS_NOTIFIER_ITEM_IFACE : String := "org.kde.StatusNotifierItem"

/-- `DBUSMENU_IFACE` constant from the source. -/
def DBUSMENU_IFACE : String := "com.canonical.dbusmenu"

/-- `DbusMenu.OBJECT_PATH` from the source. -/
def MENU_OBJECT_PATH : String := "/MenuBar"

/-- The property map built for `org.kde.StatusNotifierItem` in
`StatusNotifierItem.__init__` (it is a construction-time snapshot:
`IconName` is `self.icon_name = "tomate-idle"`, `Status` is
`self.status = Passive`; the dict is never written to afterwards). -/
def sniPropList : List (String × DbusValue) :=
  [("AttentionIconName", .str "tomate-attention"),
   ("AttentionIconPixmap", .arr []),
   ("Category", .str "ApplicationStatus"),
   ("IconName", .str "tomate-idle"),
   ("IconPixmap", .arr []),
   ("Id", .str "tomate"),
   ("ItemIsMenu", .bool false),
   ("Menu", .objectPath MENU_OBJECT_PATH),
   ("OverlayIconName", .str ""),
   ("OverlayIconPixmap", .arr []),
   ("Status", .str "Passive"),
   ("Title", .str "Tomate"),
   ("ToolTip", .tup [.str "", .arr [], .str "", .str ""]),
   ("WindowId", .int 0)]

/-- `self._dbus_interfaces` of `StatusNotifierItem`: a one-entry dict. -/
def itemInterfaces : List (String × List (String × DbusValue)) :=
  [(STATUS_NOTIFIER_ITEM_IFACE, sniPropList)]

/-- `StatusNotifierItem.Get`: `self._dbus_interfaces.get(interface_name, {}).get(property_name)`.
A missing interface falls back to the empty dict, a missing property yields
Python `None`, modelled as `Option.none`. -/
def itemGet (interface_name property_name : String) : Option DbusValue :=
  ((itemInterfaces.lookup interface_name).getD []).lookup property_name

/-- `StatusNotifierItem.GetAll`:
`self._dbus_interfaces.get(interface_name, self._dbus_interfaces[STATUS_NOTIFIER_ITEM_IFACE])`.
The default is the item interface's own property map (that indexing cannot
fail: the key is present in `itemInterfaces`, so `getD` meets the source). -/
def itemGetAll (interface_name : String) : List (String × DbusValue) :=
  (itemInterfaces.lookup interface_name).getD
    ((itemInterfaces.lookup STATUS_NOTIFIER_ITEM_IFACE).getD [])

/-- Mutable state of `StatusNotifierItem` plus a log of every
`PropertiesChanged(interface, changed_properties, invalidated_properties)`
signal it emitted, in emission order. -/
structure SNIState where
  status : String
  icon_name : String
  signals : List (String × List (String × String) × List String)
  deriving DecidableEq

/-- The item state right after `StatusNotifierItem.__init__`:
`status = Passive`, `icon_name = "tomate-idle"`, nothing emitted yet. -/
def initialItem : SNIState :=
  { status := "Passive", icon_name := "tomate-idle", signals := [] }

/-- `StatusNotifierItem.change_icon`: no-op when the icon is unchanged,
otherwise update and emit one `PropertiesChanged` scoped to `IconName`. -/
def change_icon (st : SNIState) (new_icon : String) : SNIState :=
  if st.icon_name = new_icon then st
  else
    { st with
      icon_name := new_icon,
      signals := st.signals ++
        [(STATUS_NOTIFIER_ITEM_IFACE, [("IconName", new_icon)], [])] }

/-- `StatusNotifierItem.change_status`: no-op when the status is unchanged,
otherwise update and emit one `PropertiesChanged` scoped to `Status`. -/
def change_status (st : SNIState) (new_status : String) : SNIState :=
  if st.status = new_status then st
  else
    { st with
      status := new_status,
      signals := st.signals ++
        [(STATUS_NOTIFIER_ITEM_IFACE, [("Status", new_status)], [])] }

/-- `StatusNotifierItemPlugin.icon_name` formats the elapsed percent with
Python `"tomate-{:02.0f}".format(percent)`.  The float argument is modelled
as a rational; `{:.0f}` rounding is round-half-to-even (`pyRound`), and the
width-2 zero padding is `zpad2`. -/
def pyRound (q : ℚ) : ℤ :=
  if q - ⌊q⌋ < 1/2 then ⌊q⌋
  else if (1:ℚ)/2 < q - ⌊q⌋ then ⌊q⌋ + 1
  else if ⌊q⌋ % 2 = 0 then ⌊q⌋ else ⌊q⌋ + 1

/-- Width-2 zero padding of a rounded value, as Python's `{:02.0f}` does it
(a sign character counts towards the width, so only one-digit non-negative
values gain a leading zero). -/
def zpad2 (n : ℤ) : String :=
  if 0 ≤ n then
    (if n < 10 then "0" ++ Nat.repr n.toNat else Nat.repr n.toNat)
  else "-" ++ Nat.repr n.natAbs

/-- `StatusNotifierItemPlugin.icon_name`. -/
def icon_name (percent : ℚ) : String := "tomate-" ++ zpad2 (pyRound percent)

/-- The two `clicked` closures stored in `DbusMenu.items`
(`lambda: view.show()` and `lambda: view.hide()`), as tagged actions. -/
inductive MenuAction where
  | showWindow
  | hideWindow
  deriving DecidableEq

/-- Values stored in a `DbusMenu.items` entry: strings, booleans, the
`toggle-state` integer, the `clicked` action closure, and the `submenu`
child-id list. -/
inductive MenuValue where
  | str (s : String)
  | bool (b : Bool)
  | int (i : Int)
  | action (a : MenuAction)
  | ids (l : List Int)
  deriving DecidableEq

/-- Left-to-right traversal failing on the first failure, as a Python
comprehension raises out of its first failing element. -/
def optionTraverse {α β : Type} (f : α → Option β) : List α → Option (List β)
  | [] => some []
  | a :: t =>
      match f a, optionTraverse f t with
      | some b, some l => some (b :: l)
      | _, _ => none

/-- One menu entry: a Python dict from property name to value,
modelled as an association list in insertion order. -/
abbrev MenuItem : Type := List (String × MenuValue)

/-- A rendered property map (the result of `_render_item`). -/
abbrev Props : Type := List (String × MenuValue)

/-- `DbusMenuItem.ATTRIBUTES` from the source. -/
def ATTRIBUTES : List String :=
  ["children-display", "disposition", "enabled", "label",
   "toggle-state", "toggle-type", "type", "visible"]

/-- `DbusMenu.SHOW` from the source. -/
def SHOW : Int := 1

/-- `DbusMenu.HIDE` from the source. -/
def HIDE : Int := 2

/-- Entry `0` of `DbusMenu.items` (the root). -/
def rootItem : MenuItem :=
  [("children-display", .str "submenu"),
   ("disposition", .str "normal"),
   ("enabled", .bool true),
   ("label", .str ""),
   ("toggle-state", .int (-1)),
   ("toggle-type", .str ""),
   ("type", .str "standard"),
   ("visible", .bool true),
   ("submenu", .ids [1, 2])]

/-- Entry `SHOW = 1` of `DbusMenu.items`. -/
def showItem : MenuItem :=
  [("children-display", .str ""),
   ("disposition", .str "normal"),
   ("enabled", .bool true),
   ("label", .str "Show"),
   ("toggle-state", .int (-1)),
   ("toggle-type", .str ""),
   ("type", .str "standard"),
   ("visible", .bool false),
   ("clicked", .action .showWindow)]

/-- Entry `HIDE = 2` of `DbusMenu.items`. -/
def hideItem : MenuItem :=
  [("children-display", .str ""),
   ("disposition", .str "normal"),
   ("enabled", .bool true),
   ("label", .str "Hide"),
   ("toggle-state", .int (-1)),
   ("toggle-type", .str ""),
   ("type", .str "standard"),
   ("visible", .bool true),
   ("clicked", .action .hideWindow)]

/-- One emitted `ItemsPropertiesUpdated(updated_props, removed_props)`
signal. -/
structure MenuSignal where
  updated : List (Int × Props)
  removed : List (Int × List String)
  deriving DecidableEq

/-- Mutable state of `DbusMenu`: the revision counter, the `items` dict,
a log of every `ItemsPropertiesUpdated` signal emitted, and a log of the
`view.show()` / `view.hide()` closure invocations triggered through
`Event`. -/
structure MenuState where
  revision : Nat
  items : List (Int × MenuItem)
  signals : List MenuSignal
  invoked : List MenuAction
  deriving DecidableEq

/-- The menu state right after `DbusMenu.__init__`. -/
def initialMenu : MenuState :=
  { revision := 0,
    items := [(0, rootItem), (SHOW, showItem), (HIDE, hideItem)],
    signals := [],
    invoked := [] }

/-- `DbusMenu._render_item(item, properties)`:
`properties = None` and `properties = []` both fall back to `ATTRIBUTES`
(the source tests `properties is None or not len(properties)`; the `None`
case is folded into the empty list).  The dict comprehension
`{k: item[k] for k in properties}` raises `KeyError` on a name the entry
lacks, modelled as `none`. -/
def render_item (item : MenuItem) (properties : List String) : Option Props :=
  optionTraverse (fun k => (item.lookup k).map (fun v => (k, v)))
    (if properties.isEmpty then ATTRIBUTES else properties)

/-- `DbusMenu._render_submenu(items, item, properties)`: when the entry has
a `submenu` key, render each child id (a missing child id would raise
`KeyError`, a non-list `submenu` value would fail to iterate: both `none`);
otherwise the empty array. -/
def render_submenu (items : List (Int × MenuItem)) (item : MenuItem)
    (properties : List String) : Option (List (Int × Props × List Unit)) :=
  match item.lookup "submenu" with
  | some (.ids l) =>
      optionTraverse (fun idx =>
        match items.lookup idx with
        | some child =>
            (render_item child properties).map (fun ps => (idx, ps, ([] : List Unit)))
        | none => none) l
  | some _ => none
  | none => some []

/-- `DbusMenu.GetLayout(parent_id, recursion_depth, property_names)`.
The source reads `self.items[parent_id]` (`KeyError` on an unknown parent,
modelled as `none`) and always renders the full submenu: the
`recursion_depth` argument is never consulted. -/
def GetLayout (st : MenuState) (parent_id : Int) (recursion_depth : Int)
    (property_names : List String) :
    Option (Nat × (Int × Props × List (Int × Props × List Unit))) :=
  match st.items.lookup parent_id with
  | none => none
  | some item =>
      match recursion_depth, render_item item property_names,
            render_submenu st.items item property_names with
      | _, some ps, some ch => some (st.revision, (parent_id, ps, ch))
      | _, _, _ => none

/-- `DbusMenu.Event(idx, event_id, data, timestamp)`:
`self.items[idx].get(event_id, lambda: None)()`.  An unknown `idx` raises
`KeyError` (`none`); an `event_id` the entry lacks calls the default
`lambda: None` (a silent no-op); the `clicked` key holds a callable whose
call is logged; any other stored value is not callable, so calling it
raises `TypeError` (`none`).  `data` and `timestamp` are only logged by the
source and do not influence the result, so they are not modelled. -/
def Event (st : MenuState) (idx : Int) (event_id : String) : Option MenuState :=
  match st.items.lookup idx with
  | none => none
  | some item =>
      match item.lookup event_id with
      | none => some st
      | some (.action a) => some { st with invoked := st.invoked ++ [a] }
      | some _ => none

/-- `DbusMenu.EventGroup(events)`: the body is a single
`return dbus.Array(signature="i")`: it never dispatches any event and
always answers the empty id list, leaving the state untouched. -/
def EventGroup (st : MenuState) (_events : List (Int × String)) :
    MenuState × List Int :=
  (st, [])

/-- `DbusMenu.GetGroupProperties(ids, property_names)`: render each listed
id that is a key of `items`, in the order given, skipping absent ids; a
`KeyError` escaping `_render_item` aborts the whole call (`none`). -/
def GetGroupProperties (st : MenuState) (ids : List Int)
    (property_names : List String) : Option (List (Int × Props)) :=
  optionTraverse
    (fun idx =>
      match st.items.lookup idx with
      | some item => (render_item item property_names).map (fun ps => (idx, ps))
      | none => none)
    (ids.filter (fun idx => (st.items.lookup idx).isSome))

/-- Replace the value at an existing key of an entry, in place (the source
only ever assigns `item["visible"]`, a key every entry has; a fresh key
would be appended, as Python dict assignment does). -/
def setKey (item : MenuItem) (k : String) (v : MenuValue) : MenuItem :=
  if (item.lookup k).isSome then
    item.map (fun q => if q.1 = k then (q.1, v) else q)
  else item ++ [(k, v)]

/-- `self.items[idx][k] = v` on the `items` dict (the source only uses the
keys `SHOW` and `HIDE`, which are always present). -/
def setItemProp (items : List (Int × MenuItem)) (idx : Int) (k : String)
    (v : MenuValue) : List (Int × MenuItem) :=
  items.map (fun p => if p.1 = idx then (p.1, setKey p.2 k v) else p)

/-- `DbusMenu.update_menu(is_visible)`: flip the `visible` flags of the
`SHOW` and `HIDE` entries, then emit one `ItemsPropertiesUpdated` whose
payload renders every entry of `items` (with all attributes) in dict
order, with an empty `removed_props` list. -/
def update_menu (st : MenuState) (is_visible : Bool) : Option MenuState :=
  let items2 :=
    setItemProp (setItemProp st.items SHOW "visible" (.bool (!is_visible)))
      HIDE "visible" (.bool is_visible)
  (optionTraverse (fun p => (render_item p.2 []).map (fun ps => (p.1, ps))) items2).map
    (fun payload =>
      { st with items := items2,
                signals := st.signals ++ [{ updated := payload, removed := [] }] })

/-- State of `StatusNotifierItemPlugin` (the controller): the activation
flag from the plugin framework plus the two owned service objects. -/
structure PluginState where
  is_activated : Bool
  item : SNIState
  menu : MenuState
  deriving DecidableEq

/-- The plugin right after `configure`, with `activate` done
(`is_activated = true`), before any event arrived. -/
def initialPlugin : PluginState :=
  { is_activated := true, item := initialItem, menu := initialMenu }

/-- `StatusNotifierItemPlugin.change_status`: forwarded to the item service
only while the plugin is activated. -/
def plugin_change_status (p : PluginState) (new_status : String) : PluginState :=
  if p.is_activated then { p with item := change_status p.item new_status } else p

/-- `StatusNotifierItemPlugin.change_icon`: forwarded to the item service
only while the plugin is activated. -/
def plugin_change_icon (p : PluginState) (new_icon : String) : PluginState :=
  if p.is_activated then { p with item := change_icon p.item new_icon } else p

/-- `StatusNotifierItemPlugin.change_visibility`: forwarded to
`DbusMenu.update_menu` only while the plugin is activated. -/
def plugin_change_visibility (p : PluginState) (view_is_visible : Bool) :
    Option PluginState :=
  if p.is_activated then
    (update_menu p.menu view_is_visible).map (fun m => { p with menu := m })
  else some p

/-- `StatusNotifierItemPlugin.on_session_start`
(handler of `Events.SESSION_START`): set status `Active`, then show the
menu entry for hiding the window. -/
def on_session_start (p : PluginState) : Option PluginState :=
  plugin_change_visibility (plugin_change_status p "Active") true

/-- `StatusNotifierItemPlugin.on_session_stop`
(handler of `Events.SESSION_INTERRUPT` and `Events.SESSION_END`):
set status `Passive`. -/
def on_session_stop (p : PluginState) : PluginState :=
  plugin_change_status p "Passive"

/-- Claim C1: `DbusMenu.GetLayout` never consults `recursion_depth`: the
call with depth `0` yields the very same answer as the call with depth
`-1`, namely the root with both children rendered with all eight
attributes — so the children array at depth `0` is not empty, against the
method's own docstring (`0: no recursion, the array will be empty`). -/
theorem getLayout_ignores_recursion_depth :
    GetLayout initialMenu 0 0 [] = GetLayout initialMenu 0 (-1) [] ∧
    (GetLayout initialMenu 0 0 []).map (fun r => r.2.2.2.map (fun c => c.1)) =
      some [1, 2] ∧
    (GetLayout initialMenu 0 (-1) []).map
        (fun r => r.2.2.2.map (fun c => c.2.1.map Prod.fst)) =
      some [ATTRIBUTES, ATTRIBUTES] ∧
    (GetLayout initialMenu 0 0 []).map (fun r => r.2.2.2.map (fun c => c.1)) ≠
      some ([] : List Int) := by
  refine ⟨rfl, rfl, rfl, ?_⟩
  decide

/-- Claim C2: `DbusMenu.EventGroup` is inert: on the batch
`[(HIDE, "clicked"), (9999, "clicked")]` it leaves the menu state
untouched (in particular the bound hide action is never invoked) and
returns the empty id list instead of the unresolved `[9999]`. -/
theorem eventGroup_is_inert :
    EventGroup initialMenu [(HIDE, "clicked"), (9999, "clicked")] =
      (initialMenu, []) ∧
    (EventGroup initialMenu [(HIDE, "clicked"), (9999, "clicked")]).2 ≠
      [9999] := by
  refine ⟨rfl, ?_⟩
  decide

/-- Claim C8: from the freshly constructed, activated plugin, a
session-start immediately followed by a session-end leaves the item status
`Passive` and the item has emitted exactly two `PropertiesChanged`
signals, scoped to `Status`, in the order `Active` then `Passive`. -/
theorem session_start_then_stop :
    (on_session_start initialPlugin).map
        (fun p => ((on_session_stop p).item.status, (on_session_stop p).item.signals)) =
      some ("Passive",
        [(STATUS_NOTIFIER_ITEM_IFACE, [("Status", "Active")], []),
         (STATUS_NOTIFIER_ITEM_IFACE, [("Status", "Passive")], [])]) := by
  rfl

/-- Claim C4: `change_status` is a complete no-op (state and signal log
unchanged) when the new status equals the current one, and otherwise sets
the status and appends exactly one `PropertiesChanged` scoped to `Status`;
`change_icon` obeys the same rule scoped to `IconName`; hence two
consecutive `change_status` calls with the same value emit exactly one
signal in total (zero when it was already current). -/
theorem change_status_and_icon_spec (st : SNIState) (s n : String) :
    (st.status = s → change_status st s = st) ∧
    (st.status ≠ s →
      (change_status st s).status = s ∧
      (change_status st s).signals =
        st.signals ++ [(STATUS_NOTIFIER_ITEM_IFACE, [("Status", s)], [])]) ∧
    (st.icon_name = n → change_icon st n = st) ∧
    (st.icon_name ≠ n →
      (change_icon st n).icon_name = n ∧
      (change_icon st n).signals =
        st.signals ++ [(STATUS_NOTIFIER_ITEM_IFACE, [("IconName", n)], [])]) ∧
    (change_status (change_status st s) s).signals.length =
      st.signals.length + (if st.status = s then 0 else 1) := by
  refine ⟨fun h => by simp [change_status, h],
          fun h => by simp [change_status, h],
          fun h => by simp [change_icon, h],
          fun h => by simp [change_icon, h], ?_⟩
  by_cases h : st.status = s <;> simp [change_status, h]

/-- Witness for C4 at the freshly built item and status `Active`. -/
theorem change_status_and_icon_spec_witness :
    initialItem.status ≠ "Active" ∧
    ((change_status initialItem "Active").status = "Active" ∧
      (change_status initialItem "Active").signals =
        initialItem.signals ++
          [(STATUS_NOTIFIER_ITEM_IFACE, [("Status", "Active")], [])]) ∧
    (change_status (change_status initialItem "Active") "Active").signals.length =
      initialItem.signals.length +
        (if initialItem.status = "Active" then 0 else 1) :=
  ⟨by decide,
   (change_status_and_icon_spec initialItem "Active" "x").2.1 (by decide),
   (change_status_and_icon_spec initialItem "Active" "x").2.2.2.2⟩

/-- Claim C3 refutation: `DbusMenu.Event` on an id absent from the model
is not a silent no-op: `self.items[9999]` raises `KeyError` (modelled as
`none`), whereas the claim demands the unchanged state (`some initialMenu`). -/
theorem event_unknown_id_raises :
    Event initialMenu 9999 "clicked" = none ∧
    Event initialMenu 9999 "clicked" ≠ some initialMenu := by
  refine ⟨rfl, ?_⟩
  decide

/-- Claim C3 as amended: for an id present in the model, `Event` invokes
the bound `clicked` action exactly once (`SHOW` and `HIDE` carry one), and
an `eventId` that is not a key of the entry — `hovered`, `opened`,
`closed`, vendor-prefixed ids, or `clicked` on the root — is a silent
no-op; an id absent from the model raises a lookup error instead. -/
theorem event_dispatch_spec (idx : Int) (event_id : String) :
    Event initialMenu SHOW "clicked" =
      some { initialMenu with invoked := [MenuAction.showWindow] } ∧
    Event initialMenu HIDE "clicked" =
      some { initialMenu with invoked := [MenuAction.hideWindow] } ∧
    Event initialMenu 0 "clicked" = some initialMenu ∧
    (initialMenu.items.lookup idx = none → Event initialMenu idx event_id = none) ∧
    (∀ item, initialMenu.items.lookup idx = some item →
      item.lookup event_id = none → Event initialMenu idx event_id = some initialMenu) := by
  refine ⟨rfl, rfl, rfl, fun h => ?_, fun item h1 h2 => ?_⟩
  · simp [Event, h]
  · simp [Event, h1, h2]

/-- Witness for C3 at id `9999` (absent) and eventId `hovered` on `HIDE`. -/
theorem event_dispatch_spec_witness :
    initialMenu.items.lookup 9999 = none ∧
    Event initialMenu 9999 "hovered" = none ∧
    hideItem.lookup "hovered" = none ∧
    Event initialMenu HIDE "hovered" = some initialMenu :=
  ⟨by decide,
   (event_dispatch_spec 9999 "hovered").2.2.2.1 (by decide),
   by decide,
   (event_dispatch_spec HIDE "hovered").2.2.2.2 hideItem (by decide) (by decide)⟩

/-- Claim C6 refutation: `StatusNotifierItem.GetAll` on an interface name
that is not registered does not return an empty result: it falls back to
the full `org.kde.StatusNotifierItem` property map. -/
theorem item_getall_unknown_not_empty :
    itemGetAll "org.example.Unknown" = sniPropList ∧ sniPropList ≠ [] := by
  refine ⟨rfl, ?_⟩
  simp [sniPropList]

/-- Claim C6 as amended: the item service's property getters never fail:
`Get` answers `none` (Python `None`) for an unknown interface or an
unknown property of the known interface, and `GetAll` answers the
`org.kde.StatusNotifierItem` property map — for that interface, and as a
substitute for any unknown interface as well. -/
theorem item_property_getters_total (interface_name property_name : String) :
    (interface_name ≠ STATUS_NOTIFIER_ITEM_IFACE →
      itemGet interface_name property_name = none ∧
      itemGetAll interface_name = sniPropList) ∧
    itemGet STATUS_NOTIFIER_ITEM_IFACE property_name =
      sniPropList.lookup property_name ∧
    itemGet STATUS_NOTIFIER_ITEM_IFACE "Version" = none ∧
    itemGetAll STATUS_NOTIFIER_ITEM_IFACE = sniPropList := by
  refine ⟨fun h => ?_, ?_, rfl, rfl⟩
  · have hb : (interface_name == STATUS_NOTIFIER_ITEM_IFACE) = false :=
      beq_eq_false_iff_ne.mpr h
    constructor
    · simp [itemGet, itemInterfaces, List.lookup, hb]
    · simp [itemGetAll, itemInterfaces, List.lookup, hb]
  · simp [itemGet, itemInterfaces, List.lookup]

/-- Witness for C6 at the properties interface name (not registered in
`_dbus_interfaces`) and at an unknown property of the known interface. -/
theorem item_property_getters_total_witness :
    "org.freedesktop.DBus.Properties" ≠ STATUS_NOTIFIER_ITEM_IFACE ∧
    itemGet "org.freedesktop.DBus.Properties" "Status" = none ∧
    itemGetAll "org.freedesktop.DBus.Properties" = sniPropList ∧
    itemGet STATUS_NOTIFIER_ITEM_IFACE "Version" = none :=
  ⟨by decide,
   ((item_property_getters_total "org.freedesktop.DBus.Properties" "Status").1
     (by decide)).1,
   ((item_property_getters_total "org.freedesktop.DBus.Properties" "Status").1
     (by decide)).2,
   (item_property_getters_total "org.freedesktop.DBus.Properties" "Status").2.2.1⟩

/-- Claim C5 refutation: the `ItemsPropertiesUpdated` payload emitted by
`update_menu(True)` does not list just the Show and Hide entries: it lists
every entry of the `items` dict, the root (id `0`) included. -/
theorem update_menu_signal_covers_root :
    (update_menu initialMenu true).map
        (fun m => m.signals.map (fun s => s.updated.map Prod.fst)) =
      some [[0, SHOW, HIDE]] ∧
    ([[0, SHOW, HIDE]] : List (List Int)) ≠ [[SHOW, HIDE]] := by
  refine ⟨rfl, ?_⟩
  decide

/-- Claim C5 as amended: `update_menu(v)` sets the Show entry's `visible`
flag to `not v` and the Hide entry's to `v`, then emits exactly one
`ItemsPropertiesUpdated` whose payload renders every entry (root, Show,
Hide) with its current properties; afterwards
`GetGroupProperties([SHOW, HIDE], ["visible"])` answers `visible = not v`
for Show and `visible = v` for Hide, and a second call with `not v` flips
both answers. -/
theorem update_menu_spec (b : Bool) :
    (update_menu initialMenu b).map
        (fun m =>
          ((m.items.lookup SHOW).bind (fun it => it.lookup "visible"),
           (m.items.lookup HIDE).bind (fun it => it.lookup "visible"))) =
      some (some (.bool (!b)), some (.bool b)) ∧
    (update_menu initialMenu b).map (fun m => m.signals.length) = some 1 ∧
    (update_menu initialMenu b).map
        (fun m => m.signals.map
          (fun s => s.updated.map (fun q => (q.1, q.2.lookup "visible")))) =
      some [[(0, some (.bool true)), (SHOW, some (.bool (!b))),
             (HIDE, some (.bool b))]] ∧
    ((update_menu initialMenu b).bind
        (fun m => GetGroupProperties m [SHOW, HIDE] ["visible"])) =
      some [(SHOW, [("visible", .bool (!b))]), (HIDE, [("visible", .bool b)])] ∧
    (((update_menu initialMenu b).bind (fun m => update_menu m (!b))).bind
        (fun m => GetGroupProperties m [SHOW, HIDE] ["visible"])) =
      some [(SHOW, [("visible", .bool b)]), (HIDE, [("visible", .bool (!b))])] := by
  cases b <;> exact ⟨rfl, rfl, rfl, rfl, rfl⟩

/-- Witness for C5 at `v = true`: one signal is emitted and the
`GetGroupProperties` answer reads `visible = false` for Show,
`visible = true` for Hide. -/
theorem update_menu_spec_witness :
    (update_menu initialMenu true).map (fun m => m.signals.length) = some 1 ∧
    ((update_menu initialMenu true).bind
        (fun m => GetGroupProperties m [SHOW, HIDE] ["visible"])) =
      some [(SHOW, [("visible", .bool false)]), (HIDE, [("visible", .bool true)])] :=
  ⟨(update_menu_spec true).2.1, (update_menu_spec true).2.2.2.1⟩

/-- Claim C9 refutation: a property filter naming a property the entry
lacks makes `GetGroupProperties` raise (`KeyError` out of the dict
comprehension in `_render_item`), so the present id `SHOW` gets no
rendered pair. -/
theorem getgroup_unknown_filter_raises :
    GetGroupProperties initialMenu [SHOW] ["bogus"] = none ∧
    (GetGroupProperties initialMenu [SHOW] ["bogus"]).map
        (fun l => l.map Prod.fst) ≠ some [SHOW] := by
  refine ⟨rfl, ?_⟩
  decide

/-- Any entry reachable through `initialMenu.items` is one of the three
literal entries built in `DbusMenu.__init__`. -/
theorem initial_lookup_cases (j : Int) (item : MenuItem)
    (h : initialMenu.items.lookup j = some item) :
    item = rootItem ∨ item = showItem ∨ item = hideItem := by
  simp only [initialMenu, SHOW, HIDE, List.lookup] at h
  cases hb0 : (j == (0 : Int)) <;> cases hb1 : (j == (1 : Int)) <;>
    cases hb2 : (j == (2 : Int)) <;> simp [hb0, hb1, hb2] at h <;> tauto

/-- Every entry of the initial menu carries all eight attributes. -/
theorem initial_lookup_attrs (j : Int) (item : MenuItem)
    (h : initialMenu.items.lookup j = some item) :
    ∀ k ∈ ATTRIBUTES, (item.lookup k).isSome := by
  rcases initial_lookup_cases j item h with h' | h' | h' <;> subst h' <;> decide

/-- Rendering a key list succeeds as soon as the entry has every key. -/
theorem traverse_lookup_isSome (item : MenuItem) :
    ∀ ks : List String, (∀ k ∈ ks, (item.lookup k).isSome) →
      (optionTraverse (fun k => (item.lookup k).map (fun v => (k, v))) ks).isSome := by
  intro ks
  induction ks with
  | nil => intro _; simp [optionTraverse]
  | cons a t ih =>
      intro h
      obtain ⟨v, hv⟩ := Option.isSome_iff_exists.mp (h a (by simp))
      obtain ⟨l, hl⟩ := Option.isSome_iff_exists.mp
        (ih (fun k hk => h k (List.mem_cons_of_mem a hk)))
      simp [optionTraverse, hv, hl]

/-- `_render_item` succeeds on every initial entry under a filter drawn
from the eight attributes (or the empty filter). -/
theorem render_item_isSome (item : MenuItem)
    (hattrs : ∀ k ∈ ATTRIBUTES, (item.lookup k).isSome)
    (props : List String) (hp : ∀ k ∈ props, k ∈ ATTRIBUTES) :
    (render_item item props).isSome := by
  unfold render_item
  apply traverse_lookup_isSome
  intro k hk
  by_cases he : props.isEmpty
  · exact hattrs k (by simpa [he] using hk)
  · exact hattrs k (hp k (by simpa [he] using hk))

/-- Claim C9 as amended (kernel of the proof): mapping the render over a
list of ids that are all present yields one pair per id, in order. -/
theorem getgroup_aux (props : List String) (hp : ∀ k ∈ props, k ∈ ATTRIBUTES) :
    ∀ js : List Int, (∀ j ∈ js, (initialMenu.items.lookup j).isSome) →
      ∃ l, optionTraverse (fun idx =>
              match initialMenu.items.lookup idx with
              | some item => (render_item item props).map (fun ps => (idx, ps))
              | none => none) js = some l ∧
        l.map Prod.fst = js ∧
        ∀ pr ∈ l, ∃ item, initialMenu.items.lookup pr.1 = some item ∧
          render_item item props = some pr.2 := by
  intro js
  induction js with
  | nil => intro _; exact ⟨[], by simp [optionTraverse], rfl, by simp⟩
  | cons j t ih =>
      intro h
      obtain ⟨item, hitem⟩ := Option.isSome_iff_exists.mp (h j (by simp))
      obtain ⟨ps, hps⟩ := Option.isSome_iff_exists.mp
        (render_item_isSome item (initial_lookup_attrs j item hitem) props hp)
      obtain ⟨l, hl, hfst, hmem⟩ := ih (fun k hk => h k (List.mem_cons_of_mem j hk))
      refine ⟨(j, ps) :: l, ?_, by simp [hfst], ?_⟩
      · simp [optionTraverse, hitem, hps, hl]
      · intro pr hpr
        rcases List.mem_cons.mp hpr with h' | h'
        · subst h'; exact ⟨item, hitem, hps⟩
        · exact hmem pr h'

/-- Claim C9 as amended: for every id list and every property filter drawn
from the eight entry attributes (or empty, meaning all of them),
`GetGroupProperties` returns one `(id, rendered properties)` pair for each
listed id present in the model, in the order given, silently dropping the
absent ids; a filter naming a property an entry lacks raises instead. -/
theorem getgroup_spec (ids : List Int) (props : List String)
    (hp : ∀ k ∈ props, k ∈ ATTRIBUTES) :
    ∃ l, GetGroupProperties initialMenu ids props = some l ∧
      l.map Prod.fst =
        ids.filter (fun i => (initialMenu.items.lookup i).isSome) ∧
      ∀ pr ∈ l, ∃ item, initialMenu.items.lookup pr.1 = some item ∧
        render_item item props = some pr.2 := by
  unfold GetGroupProperties
  exact getgroup_aux props hp _
    (fun j hj => (List.mem_filter.mp hj).2)

/-- Witness for C9: ids `[SHOW, 9999, HIDE]` under filter `["visible"]`:
the absent id `9999` is dropped, the two present ids answer in order. -/
theorem getgroup_spec_witness :
    (∀ k ∈ (["visible"] : List String), k ∈ ATTRIBUTES) ∧
    ∃ l, GetGroupProperties initialMenu [SHOW, 9999, HIDE] ["visible"] = some l ∧
      l.map Prod.fst = [SHOW, HIDE] := by
  refine ⟨by decide, ?_⟩
  obtain ⟨l, hl, hfst, -⟩ :=
    getgroup_spec [SHOW, 9999, HIDE] ["visible"] (by decide)
  refine ⟨l, hl, ?_⟩
  rw [hfst]
  decide

/-- Claim C10: with an empty (or absent) property filter every rendered
property map — those in `GetLayout` and `GetGroupProperties` answers and
in the `ItemsPropertiesUpdated` payload all come from `_render_item` —
carries exactly the eight attribute keys, and neither the internal
`clicked` binding nor the internal `submenu` id list is among them. -/
theorem render_exposes_exactly_attributes :
    (∀ p ∈ initialMenu.items,
      (render_item p.2 []).map (fun ps => ps.map Prod.fst) = some ATTRIBUTES) ∧
    "clicked" ∉ ATTRIBUTES ∧ "submenu" ∉ ATTRIBUTES ∧
    (∀ b : Bool, (update_menu initialMenu b).map
        (fun m => m.signals.map
          (fun s => s.updated.map (fun q => q.2.map Prod.fst))) =
      some [[ATTRIBUTES, ATTRIBUTES, ATTRIBUTES]]) := by
  refine ⟨by decide, by decide, by decide, ?_⟩
  intro b
  cases b <;> rfl

/-- Witness for C10 at the root entry. -/
theorem render_exposes_exactly_attributes_witness :
    ((0 : Int), rootItem) ∈ initialMenu.items ∧
    (render_item rootItem []).map (fun ps => ps.map Prod.fst) = some ATTRIBUTES :=
  ⟨by decide, render_exposes_exactly_attributes.1 (0, rootItem) (by decide)⟩

/-- `pyRound` lands on a nearest integer: its distance to the argument is
at most one half. -/
theorem pyRound_nearest (q : ℚ) : |q - (pyRound q : ℚ)| ≤ 1/2 := by
  have hf1 : (⌊q⌋ : ℚ) ≤ q := Int.floor_le q
  have hf2 : q < ⌊q⌋ + 1 := Int.lt_floor_add_one q
  unfold pyRound
  split_ifs with h1 h2 h3 <;> rw [abs_le] <;> push_cast <;>
    constructor <;> linarith

/-- `pyRound` keeps non-negative inputs non-negative. -/
theorem pyRound_nonneg (q : ℚ) (h : 0 ≤ q) : 0 ≤ pyRound q := by
  have h0 : 0 ≤ ⌊q⌋ := Int.le_floor.mpr (by exact_mod_cast h)
  unfold pyRound
  split_ifs <;> omega

/-- `pyRound` keeps inputs at most `100` at most `100`. -/
theorem pyRound_le_100 (q : ℚ) (h : q ≤ 100) : pyRound q ≤ 100 := by
  have hfl : ⌊q⌋ ≤ 100 := by exact_mod_cast (Int.floor_le q).trans h
  unfold pyRound
  split_ifs with h1 h2 h3
  · exact hfl
  · have hq : (⌊q⌋ : ℚ) < 100 := by linarith
    have : ⌊q⌋ < 100 := by exact_mod_cast hq
    omega
  · exact hfl
  · have hq : (⌊q⌋ : ℚ) < 100 := by linarith
    have : ⌊q⌋ < 100 := by exact_mod_cast hq
    omega

/-- The padded identifier for a rounded value in `[0, 100]` is at least
two characters wide. -/
theorem zpad2_length (n : ℤ) (h0 : 0 ≤ n) (h1 : n ≤ 100) :
    2 ≤ (zpad2 n).length := by
  have hn : ((n.toNat : ℤ)) = n := Int.toNat_of_nonneg h0
  have hlt : n.toNat < 101 := by omega
  have hall : ∀ m : Fin 101, 2 ≤ (zpad2 ((m : ℕ) : ℤ)).length := by decide
  have := hall ⟨n.toNat, hlt⟩
  simpa [hn] using this

/-- Claim C7: for every percent in `[0, 100]` the controller's icon name
is `tomate-` followed by the percent rounded to a nearest whole number
(distance at most one half) zero-padded to at least two digits; `99.6`
yields `tomate-100`, `0` yields `tomate-00`, and the out-of-range `150`
passes through unclamped as `tomate-150`. -/
theorem icon_name_spec (q : ℚ) (h0 : 0 ≤ q) (h1 : q ≤ 100) :
    |q - (pyRound q : ℚ)| ≤ 1/2 ∧
    icon_name q = "tomate-" ++ zpad2 (pyRound q) ∧
    2 ≤ (zpad2 (pyRound q)).length ∧
    icon_name (996/10) = "tomate-100" ∧
    icon_name 0 = "tomate-00" ∧
    icon_name 150 = "tomate-150" := by
  have e1 : ⌊(996/10 : ℚ)⌋ = 99 := by norm_num [Int.floor_eq_iff]
  have r1 : pyRound (996/10 : ℚ) = 100 := by rw [pyRound, e1]; norm_num
  have e2 : ⌊(0 : ℚ)⌋ = 0 := by norm_num
  have r2 : pyRound (0 : ℚ) = 0 := by rw [pyRound, e2]; norm_num
  have e3 : ⌊(150 : ℚ)⌋ = 150 := by norm_num [Int.floor_eq_iff]
  have r3 : pyRound (150 : ℚ) = 150 := by rw [pyRound, e3]; norm_num
  refine ⟨pyRound_nearest q, rfl,
    zpad2_length _ (pyRound_nonneg q h0) (pyRound_le_100 q h1), ?_, ?_, ?_⟩
  · rw [icon_name, r1]; rfl
  · rw [icon_name, r2]; rfl
  · rw [icon_name, r3]; rfl

/-- Witness for C7 at percent `0`. -/
theorem icon_name_spec_witness :
    (0 : ℚ) ≤ 0 ∧ (0 : ℚ) ≤ 100 ∧ icon_name 0 = "tomate-00" :=
  ⟨le_refl 0, by norm_num,
   (icon_name_spec 0 (le_refl 0) (by norm_num)).2.2.2.2.1⟩

end StatusNotifier
